import Mathlib

/-!
Verification of the marketsafe model-conversion and model-download scripts.

The repository holds four standalone Python scripts:
  * src/convert_facenet.py     - convert a FaceNet SavedModel to TFLite
  * src/convert_to_tflite.py   - same, but locates the model by scanning subdirectories
  * src/convert_facenet_v2.py  - same, with a shape-retry and a synthetic fallback model
  * src/get_tflite_models.py   - download three pretrained TFLite models over HTTP

Each script is a linear procedure whose effects are calls into an external
framework (TensorFlow) plus filesystem writes.  We embed each script as a
deterministic function over an explicit environment: the initial filesystem
state plus an oracle recording, for every external framework call the script
can make, whether that call raises an exception and (for the converter) what
byte buffer it returns.  Filesystem state is a finite association list from
path to byte content, with a directory listing for assets/models.  Each run
function mirrors the control flow of its script line by line: a `try` block
becomes a cascade in which the first failing external call short-circuits to
the `except` handler's behaviour.  The run result also records the list of
input shapes passed to the graph tracer and whether the synthetic fallback
was invoked, so retry and fallback policies are visible in the semantics.
-/

namespace Marketsafe

/-- Byte buffers (file contents, converted model buffers) as lists of bytes. -/
abbrev Bytes := List Nat

/-- One entry of a directory listing of assets/models, as seen by
`os.listdir` plus the `os.path.isdir` test the scripts apply to it. -/
structure Entry where
  name : String
  isDir : Bool
deriving DecidableEq, Repr

/-- Filesystem state: the listing of assets/models and the files present,
newest write first (lookup returns the most recent content for a path). -/
structure FS where
  entries : List Entry
  files : List (String × Bytes)
deriving DecidableEq, Repr

/-- Content of the file at path `p`, if present (`open(p)` / reading back). -/
def FS.read (fs : FS) (p : String) : Option Bytes :=
  fs.files.lookup p

/-- `os.path.exists(p)` for a file path. -/
def FS.existsFile (fs : FS) (p : String) : Bool :=
  (fs.read p).isSome

/-- `open(p, 'wb'); f.write(b)`: record the new content for path `p`. -/
def FS.write (fs : FS) (p : String) (b : Bytes) : FS :=
  ⟨fs.entries, (p, b) :: fs.files⟩

/-- The model directory hardcoded in all scripts. -/
def modelsDirPath : String := "assets/models"

/-- The SavedModel marker file checked by convert_facenet.py line 18 and
convert_facenet_v2.py line 17. -/
def markerPath : String := "assets/models/saved_model.pb"

/-- Primary output path of every conversion script. -/
def outputPath : String := "assets/models/face_recognition_model.tflite"

/-- Duplicate output path of every conversion script. -/
def mobilefacenetPath : String := "assets/models/mobilefacenet.tflite"

/-- The input tensor shapes a script can pass to `get_concrete_function`:
`[None, 160, 160, 3]` (dynamic batch) or `[1, 160, 160, 3]` (batch fixed
to 1, used only by the retry in convert_facenet_v2.py line 41). -/
inductive TShape where
  | dynBatch
  | batch1
deriving DecidableEq, Repr

/-- Environment of one conversion-script run: the initial filesystem and an
oracle fixing the outcome of each external call the script may perform.
A `false` / `none` outcome means that call raises an exception. -/
structure ConvEnv where
  /-- Initial filesystem state. -/
  fs0 : FS
  /-- `tf.saved_model.load(model_dir)` succeeds. -/
  loadOk : Bool
  /-- `model.signatures['serving_default']` succeeds (key present). -/
  sigOk : Bool
  /-- `infer.get_concrete_function` with shape `[None, 160, 160, 3]` succeeds. -/
  traceDynOk : Bool
  /-- `infer.get_concrete_function` with shape `[1, 160, 160, 3]` succeeds
  (consulted only by the retry in convert_facenet_v2.py). -/
  traceFixedOk : Bool
  /-- `converter.convert()`: the resulting buffer, or `none` if it raises. -/
  convertResult : Option Bytes
  /-- Writing the primary output file succeeds. -/
  write1Ok : Bool
  /-- Writing the mobilefacenet duplicate succeeds. -/
  write2Ok : Bool
  /-- Fallback (create_simple_tflite_model): building, compiling and fitting
  the synthetic Keras model succeeds. -/
  fbBuildOk : Bool
  /-- Fallback: `converter.convert()` on the synthetic model. -/
  fbConvertResult : Option Bytes
  /-- Fallback: writing the primary output file succeeds. -/
  fbWrite1Ok : Bool
  /-- Fallback: writing the mobilefacenet duplicate succeeds. -/
  fbWrite2Ok : Bool
deriving DecidableEq, Repr

/-- Result of one conversion-script run: the returned boolean, the final
filesystem, the list of shapes passed to `get_concrete_function` in order,
and whether the synthetic fallback was invoked. -/
structure RunResult where
  ok : Bool
  fs : FS
  traceAttempts : List TShape
  usedFallback : Bool
deriving DecidableEq, Repr

/-- Embeds `create_simple_tflite_model` of src/convert_facenet_v2.py
(lines 77-124): build and one-step-fit a small synthetic convolutional
model, convert it, and write the buffer to both fixed output paths.
Returns the function's boolean result and the filesystem after the run;
its own broad `except` turns any raised step into `False`. -/
def create_simple_tflite_model (e : ConvEnv) (fs : FS) : Bool × FS :=
  if e.fbBuildOk = false then (false, fs)
  else
    match e.fbConvertResult with
    | none => (false, fs)
    | some buf =>
      if e.fbWrite1Ok = false then (false, fs)
      else
        let fs1 := fs.write outputPath buf
        if e.fbWrite2Ok = false then (false, fs1)
        else (true, fs1.write mobilefacenetPath buf)

/-- Embeds `convert_facenet_to_tflite` of src/convert_facenet.py.
Control flow: check marker file (line 18, `return False` if absent), load
the SavedModel (line 26), resolve the serving signature (line 29), trace
once with the dynamic-batch shape (lines 34-36), convert (line 44), write
the primary output (lines 47-49) then the duplicate (lines 57-59), return
`True`; any exception is caught at line 63 and yields `False`. -/
def runConvertFacenet (e : ConvEnv) : RunResult :=
  if e.fs0.existsFile markerPath = false then ⟨false, e.fs0, [], false⟩
  else if e.loadOk = false then ⟨false, e.fs0, [], false⟩
  else if e.sigOk = false then ⟨false, e.fs0, [], false⟩
  else if e.traceDynOk = false then ⟨false, e.fs0, [TShape.dynBatch], false⟩
  else
    match e.convertResult with
    | none => ⟨false, e.fs0, [TShape.dynBatch], false⟩
    | some buf =>
      if e.write1Ok = false then ⟨false, e.fs0, [TShape.dynBatch], false⟩
      else
        let fs1 := e.fs0.write outputPath buf
        if e.write2Ok = false then ⟨false, fs1, [TShape.dynBatch], false⟩
        else ⟨true, fs1.write mobilefacenetPath buf, [TShape.dynBatch], false⟩

/-- The characters of the search substring `"facenet"`. -/
def facenetChars : List Char := "facenet".data

/-- Whether `pre` is an initial segment of `l` (used for substring search). -/
def listStartsWith : List Char → List Char → Bool
  | [], _ => true
  | _ :: _, [] => false
  | a :: as, b :: bs => a == b && listStartsWith as bs

/-- Python's `needle in hay` on character lists: `needle` occurs as a
contiguous run inside `hay`. -/
def containsSub (needle : List Char) : List Char → Bool
  | [] => needle.isEmpty
  | c :: cs => listStartsWith needle (c :: cs) || containsSub needle cs

/-- The test applied to each directory entry by src/convert_to_tflite.py
line 16: `os.path.isdir(...) and "facenet" in item.lower()`; lowering is
performed character by character. -/
def isFacenetEntry (it : Entry) : Bool :=
  it.isDir && containsSub facenetChars (it.name.data.map Char.toLower)

/-- Embeds the model-locator loop of src/convert_to_tflite.py (lines 14-19):
scan the listing of assets/models in order and return
`os.path.join("assets/models", item)` for the first entry that is a
directory and whose lowercased name contains "facenet"; `none` if no entry
qualifies. -/
def findFacenetDir (entries : List Entry) : Option String :=
  match entries.find? isFacenetEntry with
  | some it => some (modelsDirPath ++ "/" ++ it.name)
  | none => none

/-- Embeds `convert_facenet_to_tflite` of src/convert_to_tflite.py.
Identical to src/convert_facenet.py except that the model directory is
located by scanning assets/models for a "facenet" subdirectory
(lines 14-24, `return False` when none is found) instead of checking the
marker file; the rest of the pipeline (load, signature, one dynamic-shape
trace, convert, two writes, broad except returning `False`) is the same
code duplicated. -/
def runConvertToTflite (e : ConvEnv) : RunResult :=
  match findFacenetDir e.fs0.entries with
  | none => ⟨false, e.fs0, [], false⟩
  | some _ =>
    if e.loadOk = false then ⟨false, e.fs0, [], false⟩
    else if e.sigOk = false then ⟨false, e.fs0, [], false⟩
    else if e.traceDynOk = false then ⟨false, e.fs0, [TShape.dynBatch], false⟩
    else
      match e.convertResult with
      | none => ⟨false, e.fs0, [TShape.dynBatch], false⟩
      | some buf =>
        if e.write1Ok = false then ⟨false, e.fs0, [TShape.dynBatch], false⟩
        else
          let fs1 := e.fs0.write outputPath buf
          if e.write2Ok = false then ⟨false, fs1, [TShape.dynBatch], false⟩
          else ⟨true, fs1.write mobilefacenetPath buf, [TShape.dynBatch], false⟩

/-- The shapes attempted by convert_facenet_v2.py's inner try/except
(lines 33-43): the dynamic-batch shape, then on failure one retry with the
batch dimension fixed to 1. -/
def v2TraceAttempts (e : ConvEnv) : List TShape :=
  if e.traceDynOk then [TShape.dynBatch] else [TShape.dynBatch, TShape.batch1]

/-- Entering the outer `except` handler of convert_facenet_v2.py
(lines 69-74) from filesystem state `fs`: run the synthetic fallback and
return its result. -/
def v2Fallback (e : ConvEnv) (fs : FS) (attempts : List TShape) : RunResult :=
  let r := create_simple_tflite_model e fs
  ⟨r.1, r.2, attempts, true⟩

/-- Embeds `convert_facenet_to_tflite` of src/convert_facenet_v2.py.
Control flow: check marker file (line 17, plain `return False` if absent -
no exception, so no fallback), load (line 25), resolve signature (line 29),
trace with the dynamic-batch shape and on failure retry once with batch 1
(inner try/except, lines 33-43; if both raise, the second exception
propagates), convert (line 50), write the primary output then the
duplicate (lines 53-64), return `True`.  Any exception reaching the outer
handler (lines 69-74) invokes `create_simple_tflite_model` and returns its
result. -/
def runConvertFacenetV2 (e : ConvEnv) : RunResult :=
  if e.fs0.existsFile markerPath = false then ⟨false, e.fs0, [], false⟩
  else if e.loadOk = false then v2Fallback e e.fs0 []
  else if e.sigOk = false then v2Fallback e e.fs0 []
  else if e.traceDynOk = false ∧ e.traceFixedOk = false then
    v2Fallback e e.fs0 (v2TraceAttempts e)
  else
    match e.convertResult with
    | none => v2Fallback e e.fs0 (v2TraceAttempts e)
    | some buf =>
      if e.write1Ok = false then v2Fallback e e.fs0 (v2TraceAttempts e)
      else
        let fs1 := e.fs0.write outputPath buf
        if e.write2Ok = false then v2Fallback e fs1 (v2TraceAttempts e)
        else ⟨true, fs1.write mobilefacenetPath buf, v2TraceAttempts e, false⟩

/-! ### The downloader, src/get_tflite_models.py -/

/-- One entry of the hardcoded model list of src/get_tflite_models.py
(lines 36-53): display name, source URL, destination path. -/
structure DlModel where
  name : String
  url : String
  file : String
deriving DecidableEq, Repr

/-- The fixed three-element model list of src/get_tflite_models.py. -/
def modelsList : List DlModel :=
  [ ⟨"MobileNetV1",
     "https://storage.googleapis.com/download.tensorflow.org/models/tflite/mobilenet_v1_1.0_224.tflite",
     "assets/models/mobilenet_v1.tflite"⟩,
    ⟨"Face Detection",
     "https://storage.googleapis.com/mediapipe-models/face_detector/face_detector/float16/1/face_detector.tflite",
     "assets/models/face_detector.tflite"⟩,
    ⟨"Face Landmarks",
     "https://storage.googleapis.com/mediapipe-models/face_landmarker/face_landmarker/float16/1/face_landmarker.tflite",
     "assets/models/face_landmarker.tflite"⟩ ]

/-- Network oracle: for each URL, the bytes `urllib.request.urlretrieve`
would store at the destination, or `none` if the retrieval raises. -/
abbrev Net := String → Option Bytes

/-- Embeds `download_file` of src/get_tflite_models.py (lines 10-29):
retrieve `url` into `fname`; on an exception return `False` with the
filesystem unchanged; otherwise keep the downloaded file in place and
return `True` exactly when its size exceeds 100000 bytes (`size > 100000`,
line 19) - the undersized file is reported as corrupted but not removed. -/
def download_file (net : Net) (fs : FS) (url fname : String) : Bool × FS :=
  match net url with
  | none => (false, fs)
  | some bytes =>
    let fs1 := fs.write fname bytes
    (decide (bytes.length > 100000), fs1)

/-- Result of the downloader's `main`: the final success count, the total
number of entries, the final filesystem, and the URLs attempted in order. -/
structure DlResult where
  successCount : Nat
  total : Nat
  fs : FS
  attemptedUrls : List String
deriving Repr

/-- One iteration of the download loop of src/get_tflite_models.py
(lines 57-59), threading the running count, filesystem and attempt log. -/
def dlStep (net : Net) (acc : Nat × FS × List String) (m : DlModel) :
    Nat × FS × List String :=
  let r := download_file net acc.2.1 m.url m.file
  (acc.1 + (if r.1 then 1 else 0), r.2, acc.2.2 ++ [m.url])

/-- Embeds `main` of src/get_tflite_models.py (lines 31-62): attempt every
entry of the fixed model list in order - a failure of one entry does not
stop the loop - counting the entries for which `download_file` returned
`True`, and report that count over the list length. -/
def mainDownload (net : Net) (fs0 : FS) : DlResult :=
  let r := modelsList.foldl (dlStep net) (0, fs0, [])
  ⟨r.1, modelsList.length, r.2.1, r.2.2⟩

/-! ### Supporting lemmas -/

/-- Reading back a path just written yields the written bytes. -/
theorem FS.read_write_self (fs : FS) (p : String) (b : Bytes) :
    (fs.write p b).read p = some b := by
  simp [FS.read, FS.write, List.lookup]

/-- Writing one path leaves the content of a different path unchanged. -/
theorem FS.read_write_ne (fs : FS) (p q : String) (b : Bytes)
    (h : (q == p) = false) : (fs.write p b).read q = fs.read q := by
  simp [FS.read, FS.write, List.lookup, h]

/-- The two output paths are distinct strings. -/
theorem output_ne_mobile : (outputPath == mobilefacenetPath) = false := by
  decide

/-- The two output paths are distinct strings (other direction). -/
theorem mobile_ne_output : (mobilefacenetPath == outputPath) = false := by
  decide

/-- Whether the size check of `download_file` accepts the retrieval of
`url`: the retrieval raised no exception and the stored byte count strictly
exceeds 100000. -/
def retrievalAccepted (net : Net) (url : String) : Bool :=
  match net url with
  | none => false
  | some bytes => decide (bytes.length > 100000)

/-- The boolean returned by `download_file` does not depend on the
filesystem or destination name, only on the retrieval outcome of `url`. -/
theorem download_file_fst (net : Net) (fs : FS) (url fname : String) :
    (download_file net fs url fname).1 = retrievalAccepted net url := by
  cases h : net url <;> simp [download_file, retrievalAccepted, h]

/-- The running count after folding the download loop over any model list:
the starting count plus the number of accepted retrievals. -/
theorem dlFold_count (net : Net) (ms : List DlModel) :
    ∀ (n : Nat) (fs : FS) (urls : List String),
    (ms.foldl (dlStep net) (n, fs, urls)).1 =
      n + ms.countP (fun m => retrievalAccepted net m.url) := by
  induction ms with
  | nil => intro n fs urls; simp
  | cons m tail ih =>
    intro n fs urls
    rw [List.foldl_cons, List.countP_cons]
    show (tail.foldl (dlStep net) (dlStep net (n, fs, urls) m)).1 = _
    rcases hstep : dlStep net (n, fs, urls) m with ⟨n1, fs1, urls1⟩
    have hn1 : n1 = n + (if retrievalAccepted net m.url then 1 else 0) := by
      have := congrArg (fun x => x.1) hstep
      simpa [dlStep, download_file_fst] using this.symm
    rw [ih n1 fs1 urls1, hn1]
    cases retrievalAccepted net m.url <;> (simp; try omega)

/-- The attempt log after folding the download loop over any model list:
the starting log extended by every URL of the list, in order. -/
theorem dlFold_urls (net : Net) (ms : List DlModel) :
    ∀ (n : Nat) (fs : FS) (urls : List String),
    (ms.foldl (dlStep net) (n, fs, urls)).2.2 =
      urls ++ ms.map (fun m => m.url) := by
  induction ms with
  | nil => intro n fs urls; simp
  | cons m tail ih =>
    intro n fs urls
    rw [List.foldl_cons]
    show (tail.foldl (dlStep net) (dlStep net (n, fs, urls) m)).2.2 = _
    rcases hstep : dlStep net (n, fs, urls) m with ⟨n1, fs1, urls1⟩
    have hu1 : urls1 = urls ++ [m.url] := by
      have := congrArg (fun x => x.2.2) hstep
      simpa [dlStep] using this.symm
    rw [ih n1 fs1 urls1, hu1]
    simp

/-- `listStartsWith pre l` holds exactly when `l` extends `pre`. -/
theorem listStartsWith_iff (pre : List Char) :
    ∀ l : List Char, listStartsWith pre l = true ↔ ∃ t, l = pre ++ t := by
  induction pre with
  | nil => intro l; simp [listStartsWith]
  | cons a as ih =>
    intro l
    cases l with
    | nil => simp [listStartsWith]
    | cons b bs =>
      simp only [listStartsWith, Bool.and_eq_true, beq_iff_eq, ih bs]
      constructor
      · rintro ⟨hab, t, ht⟩
        exact ⟨t, by simp [hab, ht]⟩
      · rintro ⟨t, ht⟩
        simp only [List.cons_append, List.cons.injEq] at ht
        exact ⟨ht.1.symm, t, ht.2⟩

/-- The executable search `containsSub` finds exactly the contiguous
occurrences of `needle`: Python's `needle in hay`. -/
theorem containsSub_iff (needle : List Char) :
    ∀ hay : List Char,
    containsSub needle hay = true ↔ ∃ s t, hay = s ++ needle ++ t := by
  intro hay
  induction hay with
  | nil =>
    simp only [containsSub, List.isEmpty_iff]
    constructor
    · intro h; exact ⟨[], [], by simp [h]⟩
    · rintro ⟨s, t, hst⟩
      rcases List.append_eq_nil.mp (List.append_eq_nil.mp hst.symm).1 with ⟨-, h2⟩
      exact h2
  | cons c cs ih =>
    simp only [containsSub, Bool.or_eq_true, listStartsWith_iff, ih]
    constructor
    · rintro (⟨t, ht⟩ | ⟨s, t, hst⟩)
      · exact ⟨[], t, by simp [ht]⟩
      · exact ⟨c :: s, t, by simp [hst]⟩
    · rintro ⟨s, t, hst⟩
      cases s with
      | nil => exact Or.inl ⟨t, by simpa using hst⟩
      | cons x xs =>
        simp only [List.cons_append, List.cons.injEq] at hst
        exact Or.inr ⟨xs, t, hst.2⟩

/-- `find?` skips a leading block on which the predicate is false. -/
theorem find?_skip_false {α : Type} (p : α → Bool) :
    ∀ (pre l : List α), (∀ j ∈ pre, p j = false) →
    (pre ++ l).find? p = l.find? p := by
  intro pre
  induction pre with
  | nil => intro l _; rfl
  | cons a as ih =>
    intro l hall
    have ha : p a = false := hall a (by simp)
    simp only [List.cons_append, List.find?_cons, ha]
    exact ih l (fun j hj => hall j (by simp [hj]))

/-! ### Claim theorems -/

/-- C3: `download_file` returns `True` exactly when the HTTP retrieval
raises no exception and the resulting file's size strictly exceeds
100000 bytes; in particular a download that completes with fewer than
100000 bytes is reported as failed and yields `False`. -/
theorem c3_download_size_threshold (net : Net) (fs : FS) (url fname : String) :
    ((download_file net fs url fname).1 = true ↔
      ∃ bytes, net url = some bytes ∧ bytes.length > 100000) ∧
    (∀ bytes, net url = some bytes → bytes.length < 100000 →
      (download_file net fs url fname).1 = false) := by
  constructor
  · cases h : net url with
    | none => simp [download_file, h]
    | some bytes => simp [download_file, h]
  · intro bytes hb hlt
    simp only [download_file, hb, decide_eq_false_iff_not]
    omega

/-- C3 witness: a retrieval of 5 bytes is reported as failed. -/
theorem c3_download_size_threshold_witness :
    (download_file (fun _ => some (List.replicate 5 0)) ⟨[], []⟩
      "http://example/a" "assets/models/a.tflite").1 = false :=
  (c3_download_size_threshold (fun _ => some (List.replicate 5 0)) ⟨[], []⟩
      "http://example/a" "assets/models/a.tflite").2
    (List.replicate 5 0) rfl (by simp)

/-- C9: when a download completes but its size does not exceed 100000
bytes, `download_file` returns `False` yet the undersized file is left in
place at the destination path with the downloaded bytes. -/
theorem c9_small_download_left_in_place (net : Net) (fs : FS)
    (url fname : String) (bytes : Bytes)
    (hb : net url = some bytes) (hle : bytes.length ≤ 100000) :
    (download_file net fs url fname).1 = false ∧
    (download_file net fs url fname).2.read fname = some bytes := by
  refine ⟨?_, ?_⟩
  · simp only [download_file, hb, decide_eq_false_iff_not]
    omega
  · simp [download_file, hb, FS.read_write_self]

/-- C9 witness: a 3-byte download is rejected but remains on disk. -/
theorem c9_small_download_left_in_place_witness :
    (download_file (fun _ => some [7, 8, 9]) ⟨[], []⟩
      "http://example/b" "assets/models/b.tflite").1 = false ∧
    (download_file (fun _ => some [7, 8, 9]) ⟨[], []⟩
      "http://example/b" "assets/models/b.tflite").2.read
        "assets/models/b.tflite" = some [7, 8, 9] :=
  c9_small_download_left_in_place (fun _ => some [7, 8, 9]) ⟨[], []⟩
    "http://example/b" "assets/models/b.tflite" [7, 8, 9] rfl (by simp)

/-- C5: the downloader's main routine attempts all three entries of the
fixed model list in order regardless of earlier failures, and its final
success count equals the number of entries for which `download_file`
returned `True`. -/
theorem c5_summary_counts_successes (net : Net) (fs0 : FS) :
    (mainDownload net fs0).attemptedUrls =
      modelsList.map (fun m => m.url) ∧
    (mainDownload net fs0).successCount =
      modelsList.countP (fun m => (download_file net fs0 m.url m.file).1) ∧
    (mainDownload net fs0).total = 3 := by
  refine ⟨?_, ?_, rfl⟩
  · simpa [mainDownload] using dlFold_urls net modelsList 0 fs0 []
  · have h := dlFold_count net modelsList 0 fs0 []
    simp only [mainDownload, download_file_fst]
    simpa using h

/-- C2: when a script's locator fails - the marker file
assets/models/saved_model.pb is absent (convert_facenet.py,
convert_facenet_v2.py) or no subdirectory of assets/models has a name
containing "facenet" case-insensitively (convert_to_tflite.py) - the
script returns `False` with the filesystem unchanged: no output file is
written. -/
theorem c2_locator_failure_writes_nothing (e : ConvEnv) :
    (e.fs0.existsFile markerPath = false →
      runConvertFacenet e = ⟨false, e.fs0, [], false⟩ ∧
      runConvertFacenetV2 e = ⟨false, e.fs0, [], false⟩) ∧
    (findFacenetDir e.fs0.entries = none →
      runConvertToTflite e = ⟨false, e.fs0, [], false⟩) := by
  constructor
  · intro h
    exact ⟨by simp [runConvertFacenet, h], by simp [runConvertFacenetV2, h]⟩
  · intro h
    simp [runConvertToTflite, h]

/-- An initial state with neither the marker file nor a facenet
subdirectory. -/
def fsNoModel : FS := ⟨[⟨"readme.txt", false⟩], []⟩

/-- An environment over `fsNoModel` in which every external call would
succeed, so only the locator can fail. -/
def envNoModel : ConvEnv :=
  ⟨fsNoModel, true, true, true, true, some [1], true, true, true, some [2],
   true, true⟩

/-- C2 witness: with no marker file and no facenet subdirectory all three
scripts return `False` and write nothing. -/
theorem c2_locator_failure_writes_nothing_witness :
    runConvertFacenet envNoModel = ⟨false, fsNoModel, [], false⟩ ∧
    runConvertFacenetV2 envNoModel = ⟨false, fsNoModel, [], false⟩ ∧
    runConvertToTflite envNoModel = ⟨false, fsNoModel, [], false⟩ :=
  ⟨((c2_locator_failure_writes_nothing envNoModel).1 rfl).1,
   ((c2_locator_failure_writes_nothing envNoModel).1 rfl).2,
   (c2_locator_failure_writes_nothing envNoModel).2 rfl⟩

/-- C7: the scanning locator of convert_to_tflite.py returns the first
immediate subdirectory of assets/models, in directory-listing order, whose
name contains "facenet" case-insensitively; it returns `none` exactly when
no listed entry is such a subdirectory, making the caller report failure
and abort with the filesystem unchanged; any returned path comes from a
listed entry that is a directory and contains the substring. -/
theorem c7_locator_first_match (entries : List Entry) :
    (findFacenetDir entries = none ↔
      ∀ it ∈ entries, isFacenetEntry it = false) ∧
    (∀ pre it post, entries = pre ++ it :: post →
      (∀ j ∈ pre, isFacenetEntry j = false) → isFacenetEntry it = true →
      findFacenetDir entries = some (modelsDirPath ++ "/" ++ it.name)) ∧
    (∀ p, findFacenetDir entries = some p →
      ∃ it ∈ entries, it.isDir = true ∧
        containsSub facenetChars (it.name.data.map Char.toLower) = true ∧
        p = modelsDirPath ++ "/" ++ it.name) ∧
    (∀ e : ConvEnv, e.fs0.entries = entries → findFacenetDir entries = none →
      (runConvertToTflite e).ok = false ∧ (runConvertToTflite e).fs = e.fs0) := by
  refine ⟨?_, ?_, ?_, ?_⟩
  · cases h : entries.find? isFacenetEntry with
    | none =>
      simp only [findFacenetDir, h]
      simpa using List.find?_eq_none.mp h
    | some it =>
      simp only [findFacenetDir, h]
      have hit := List.find?_some h
      have hmem := List.mem_of_find?_eq_some h
      constructor
      · intro hcontra; exact absurd hcontra (by simp)
      · intro hall; exact absurd hit (by simp [hall it hmem])
  · intro pre it post hsplit hall hit
    subst hsplit
    rw [findFacenetDir, find?_skip_false isFacenetEntry pre (it :: post) hall,
      List.find?_cons_of_pos _ hit]
  · intro p hp
    rw [findFacenetDir] at hp
    cases h : entries.find? isFacenetEntry with
    | none => rw [h] at hp; exact absurd hp (by simp)
    | some it =>
      rw [h] at hp
      have hit := List.find?_some h
      have hmem := List.mem_of_find?_eq_some h
      simp only [isFacenetEntry, Bool.and_eq_true] at hit
      exact ⟨it, hmem, hit.1, hit.2, by simpa using hp.symm⟩
  · intro e hent hnone
    have h2 : findFacenetDir e.fs0.entries = none := by rw [hent]; exact hnone
    simp [runConvertToTflite, h2]

/-- After writing the same buffer to the primary path and then to the
duplicate path, both paths read back that buffer. -/
theorem read_both (fs : FS) (b : Bytes) :
    ((fs.write outputPath b).write mobilefacenetPath b).read outputPath =
      some b ∧
    ((fs.write outputPath b).write mobilefacenetPath b).read
      mobilefacenetPath = some b :=
  ⟨by rw [FS.read_write_ne _ _ _ _ output_ne_mobile, FS.read_write_self],
   FS.read_write_self _ _ _⟩

/-- When the synthetic fallback reports success, it has converted some
buffer and written it to both output paths, in that order. -/
theorem create_simple_reads (e : ConvEnv) (fs : FS)
    (h : (create_simple_tflite_model e fs).1 = true) :
    ∃ buf, e.fbConvertResult = some buf ∧
      (create_simple_tflite_model e fs).2 =
        (fs.write outputPath buf).write mobilefacenetPath buf := by
  cases hb : e.fbBuildOk with
  | false => simp [create_simple_tflite_model, hb] at h
  | true =>
    cases hc : e.fbConvertResult with
    | none => simp [create_simple_tflite_model, hb, hc] at h
    | some buf =>
      cases h1 : e.fbWrite1Ok with
      | false => simp [create_simple_tflite_model, hb, hc, h1] at h
      | true =>
        cases h2 : e.fbWrite2Ok with
        | false => simp [create_simple_tflite_model, hb, hc, h1, h2] at h
        | true =>
          exact ⟨buf, rfl, by simp [create_simple_tflite_model, hb, hc, h1, h2]⟩

/-- A successful fallback leaves identical content at both output paths. -/
theorem v2Fallback_reads (e : ConvEnv) (fs : FS) (att : List TShape)
    (h : (v2Fallback e fs att).ok = true) :
    ∃ buf, (v2Fallback e fs att).fs.read outputPath = some buf ∧
      (v2Fallback e fs att).fs.read mobilefacenetPath = some buf := by
  simp only [v2Fallback] at h ⊢
  obtain ⟨buf, -, hfs⟩ := create_simple_reads e fs h
  rw [hfs]
  exact ⟨buf, (read_both fs buf).1, (read_both fs buf).2⟩

/-- A successful run of convert_facenet.py is the full happy path: the
converter produced a buffer and the final state is the initial one with
that buffer written to the primary path and then to the duplicate. -/
theorem runConvertFacenet_ok_shape (e : ConvEnv)
    (h : (runConvertFacenet e).ok = true) :
    ∃ buf, e.convertResult = some buf ∧
      runConvertFacenet e =
        ⟨true, (e.fs0.write outputPath buf).write mobilefacenetPath buf,
         [TShape.dynBatch], false⟩ := by
  cases hm : e.fs0.existsFile markerPath with
  | false => simp [runConvertFacenet, hm] at h
  | true =>
    cases hl : e.loadOk with
    | false => simp [runConvertFacenet, hm, hl] at h
    | true =>
      cases hs : e.sigOk with
      | false => simp [runConvertFacenet, hm, hl, hs] at h
      | true =>
        cases ht : e.traceDynOk with
        | false => simp [runConvertFacenet, hm, hl, hs, ht] at h
        | true =>
          cases hc : e.convertResult with
          | none => simp [runConvertFacenet, hm, hl, hs, ht, hc] at h
          | some buf =>
            cases h1 : e.write1Ok with
            | false => simp [runConvertFacenet, hm, hl, hs, ht, hc, h1] at h
            | true =>
              cases h2 : e.write2Ok with
              | false =>
                simp [runConvertFacenet, hm, hl, hs, ht, hc, h1, h2] at h
              | true =>
                exact ⟨buf, rfl,
                  by simp [runConvertFacenet, hm, hl, hs, ht, hc, h1, h2]⟩

/-- A successful run of convert_to_tflite.py is the full happy path,
starting from a located facenet subdirectory. -/
theorem runConvertToTflite_ok_shape (e : ConvEnv)
    (h : (runConvertToTflite e).ok = true) :
    ∃ buf, e.convertResult = some buf ∧
      runConvertToTflite e =
        ⟨true, (e.fs0.write outputPath buf).write mobilefacenetPath buf,
         [TShape.dynBatch], false⟩ := by
  cases hloc : findFacenetDir e.fs0.entries with
  | none => simp [runConvertToTflite, hloc] at h
  | some d =>
    cases hl : e.loadOk with
    | false => simp [runConvertToTflite, hloc, hl] at h
    | true =>
      cases hs : e.sigOk with
      | false => simp [runConvertToTflite, hloc, hl, hs] at h
      | true =>
        cases ht : e.traceDynOk with
        | false => simp [runConvertToTflite, hloc, hl, hs, ht] at h
        | true =>
          cases hc : e.convertResult with
          | none => simp [runConvertToTflite, hloc, hl, hs, ht, hc] at h
          | some buf =>
            cases h1 : e.write1Ok with
            | false => simp [runConvertToTflite, hloc, hl, hs, ht, hc, h1] at h
            | true =>
              cases h2 : e.write2Ok with
              | false =>
                simp [runConvertToTflite, hloc, hl, hs, ht, hc, h1, h2] at h
              | true =>
                exact ⟨buf, rfl,
                  by simp [runConvertToTflite, hloc, hl, hs, ht, hc, h1, h2]⟩

/-- A successful run of convert_facenet_v2.py - through the main path or
through the fallback - leaves identical content at both output paths. -/
theorem runConvertFacenetV2_ok_reads (e : ConvEnv)
    (h : (runConvertFacenetV2 e).ok = true) :
    ∃ buf, (runConvertFacenetV2 e).fs.read outputPath = some buf ∧
      (runConvertFacenetV2 e).fs.read mobilefacenetPath = some buf := by
  cases hm : e.fs0.existsFile markerPath with
  | false => simp [runConvertFacenetV2, hm] at h
  | true =>
    cases hl : e.loadOk with
    | false =>
      have hrun : runConvertFacenetV2 e = v2Fallback e e.fs0 [] := by
        simp [runConvertFacenetV2, hm, hl]
      rw [hrun] at h ⊢
      exact v2Fallback_reads e e.fs0 [] h
    | true =>
      cases hs : e.sigOk with
      | false =>
        have hrun : runConvertFacenetV2 e = v2Fallback e e.fs0 [] := by
          simp [runConvertFacenetV2, hm, hl, hs]
        rw [hrun] at h ⊢
        exact v2Fallback_reads e e.fs0 [] h
      | true =>
        cases htr : decide (e.traceDynOk = false ∧ e.traceFixedOk = false) with
        | true =>
          have htr2 := of_decide_eq_true htr
          have hrun : runConvertFacenetV2 e =
              v2Fallback e e.fs0 (v2TraceAttempts e) := by
            simp [runConvertFacenetV2, hm, hl, hs, htr2.1, htr2.2]
          rw [hrun] at h ⊢
          exact v2Fallback_reads e e.fs0 _ h
        | false =>
          have htr2 := of_decide_eq_false htr
          cases hc : e.convertResult with
          | none =>
            have hrun : runConvertFacenetV2 e =
                v2Fallback e e.fs0 (v2TraceAttempts e) := by
              simp [runConvertFacenetV2, hm, hl, hs, htr2, hc]
            rw [hrun] at h ⊢
            exact v2Fallback_reads e e.fs0 _ h
          | some buf =>
            cases h1 : e.write1Ok with
            | false =>
              have hrun : runConvertFacenetV2 e =
                  v2Fallback e e.fs0 (v2TraceAttempts e) := by
                simp [runConvertFacenetV2, hm, hl, hs, htr2, hc, h1]
              rw [hrun] at h ⊢
              exact v2Fallback_reads e e.fs0 _ h
            | true =>
              cases h2 : e.write2Ok with
              | false =>
                have hrun : runConvertFacenetV2 e =
                    v2Fallback e (e.fs0.write outputPath buf)
                      (v2TraceAttempts e) := by
                  simp [runConvertFacenetV2, hm, hl, hs, htr2, hc, h1, h2]
                rw [hrun] at h ⊢
                exact v2Fallback_reads e _ _ h
              | true =>
                have hrun : runConvertFacenetV2 e =
                    ⟨true, (e.fs0.write outputPath buf).write
                      mobilefacenetPath buf, v2TraceAttempts e, false⟩ := by
                  simp [runConvertFacenetV2, hm, hl, hs, htr2, hc, h1, h2]
                rw [hrun]
                exact ⟨buf, (read_both e.fs0 buf).1, (read_both e.fs0 buf).2⟩

/-- C1: whenever a conversion script returns `True`, both output paths
assets/models/face_recognition_model.tflite and
assets/models/mobilefacenet.tflite hold the same buffer: the converted
model bytes were written verbatim to both. -/
theorem c1_both_outputs_identical (e : ConvEnv) :
    ((runConvertFacenet e).ok = true →
      ∃ buf, (runConvertFacenet e).fs.read outputPath = some buf ∧
        (runConvertFacenet e).fs.read mobilefacenetPath = some buf) ∧
    ((runConvertToTflite e).ok = true →
      ∃ buf, (runConvertToTflite e).fs.read outputPath = some buf ∧
        (runConvertToTflite e).fs.read mobilefacenetPath = some buf) ∧
    ((runConvertFacenetV2 e).ok = true →
      ∃ buf, (runConvertFacenetV2 e).fs.read outputPath = some buf ∧
        (runConvertFacenetV2 e).fs.read mobilefacenetPath = some buf) := by
  refine ⟨?_, ?_, runConvertFacenetV2_ok_reads e⟩
  · intro h
    obtain ⟨buf, -, hrun⟩ := runConvertFacenet_ok_shape e h
    rw [hrun]
    exact ⟨buf, (read_both e.fs0 buf).1, (read_both e.fs0 buf).2⟩
  · intro h
    obtain ⟨buf, -, hrun⟩ := runConvertToTflite_ok_shape e h
    rw [hrun]
    exact ⟨buf, (read_both e.fs0 buf).1, (read_both e.fs0 buf).2⟩

/-- An initial state holding both the marker file and a facenet
subdirectory, so every script's locator succeeds. -/
def fsWithModel : FS := ⟨[⟨"facenet_saved", true⟩], [(markerPath, [0])]⟩

/-- An environment over `fsWithModel` in which every external call
succeeds: each script's happy path. -/
def envAllOk : ConvEnv :=
  ⟨fsWithModel, true, true, true, true, some [10, 11], true, true, true,
   some [20], true, true⟩

/-- C1 witness: on the happy-path environment all three scripts succeed
and both outputs read back identically. -/
theorem c1_both_outputs_identical_witness :
    (∃ buf, (runConvertFacenet envAllOk).fs.read outputPath = some buf ∧
      (runConvertFacenet envAllOk).fs.read mobilefacenetPath = some buf) ∧
    (∃ buf, (runConvertToTflite envAllOk).fs.read outputPath = some buf ∧
      (runConvertToTflite envAllOk).fs.read mobilefacenetPath = some buf) ∧
    (∃ buf, (runConvertFacenetV2 envAllOk).fs.read outputPath = some buf ∧
      (runConvertFacenetV2 envAllOk).fs.read mobilefacenetPath = some buf) :=
  ⟨(c1_both_outputs_identical envAllOk).1 (by decide),
   (c1_both_outputs_identical envAllOk).2.1 (by decide),
   (c1_both_outputs_identical envAllOk).2.2 (by decide)⟩

/-- C7 witness: with a non-directory first entry, the first facenet
subdirectory ("FaceNet_v1") is returned, skipping the non-match. -/
theorem c7_locator_first_match_witness :
    findFacenetDir
      [⟨"notes.txt", false⟩, ⟨"FaceNet_v1", true⟩, ⟨"facenet_old", true⟩] =
      some "assets/models/FaceNet_v1" :=
  (c7_locator_first_match
      [⟨"notes.txt", false⟩, ⟨"FaceNet_v1", true⟩, ⟨"facenet_old", true⟩]).2.1
    [⟨"notes.txt", false⟩] ⟨"FaceNet_v1", true⟩ [⟨"facenet_old", true⟩]
    rfl (by decide) (by decide)

/-- C8: in convert_facenet_v2.py the synthetic fallback is invoked only
when an exception is raised; a merely absent marker file makes the
function return `False` directly, with nothing written and no fallback, so
a missing source model never produces a placeholder output. -/
theorem c8_no_fallback_without_exception (e : ConvEnv) :
    (e.fs0.existsFile markerPath = false →
      runConvertFacenetV2 e = ⟨false, e.fs0, [], false⟩) ∧
    ((runConvertFacenetV2 e).usedFallback = true →
      e.fs0.existsFile markerPath = true ∧
      (e.loadOk = false ∨ e.sigOk = false ∨
        (e.traceDynOk = false ∧ e.traceFixedOk = false) ∨
        e.convertResult = none ∨ e.write1Ok = false ∨
        e.write2Ok = false)) := by
  constructor
  · intro h
    simp [runConvertFacenetV2, h]
  · intro h
    cases hm : e.fs0.existsFile markerPath with
    | false => simp [runConvertFacenetV2, hm] at h
    | true =>
      refine ⟨rfl, ?_⟩
      cases hl : e.loadOk with
      | false => exact Or.inl rfl
      | true =>
        cases hs : e.sigOk with
        | false => exact Or.inr (Or.inl rfl)
        | true =>
          cases ht : e.traceDynOk with
          | false =>
            cases htf : e.traceFixedOk with
            | false => exact Or.inr (Or.inr (Or.inl ⟨rfl, rfl⟩))
            | true =>
              cases hc : e.convertResult with
              | none => exact Or.inr (Or.inr (Or.inr (Or.inl rfl)))
              | some buf =>
                cases h1 : e.write1Ok with
                | false =>
                  exact Or.inr (Or.inr (Or.inr (Or.inr (Or.inl rfl))))
                | true =>
                  cases h2 : e.write2Ok with
                  | false =>
                    exact Or.inr (Or.inr (Or.inr (Or.inr (Or.inr rfl))))
                  | true =>
                    simp [runConvertFacenetV2, hm, hl, hs, ht, htf, hc,
                      h1, h2] at h
          | true =>
            cases hc : e.convertResult with
            | none => exact Or.inr (Or.inr (Or.inr (Or.inl rfl)))
            | some buf =>
              cases h1 : e.write1Ok with
              | false =>
                exact Or.inr (Or.inr (Or.inr (Or.inr (Or.inl rfl))))
              | true =>
                cases h2 : e.write2Ok with
                | false =>
                  exact Or.inr (Or.inr (Or.inr (Or.inr (Or.inr rfl))))
                | true =>
                  simp [runConvertFacenetV2, hm, hl, hs, ht, hc,
                    h1, h2] at h

/-- C8 witness: with the marker absent, convert_facenet_v2.py returns
`False` directly and the fallback never runs. -/
theorem c8_no_fallback_without_exception_witness :
    runConvertFacenetV2 envNoModel = ⟨false, fsNoModel, [], false⟩ :=
  (c8_no_fallback_without_exception envNoModel).1 rfl

/-- C4: when an exception is raised during loading, signature resolution,
tracing or conversion, convert_facenet_v2.py invokes the synthetic
fallback `create_simple_tflite_model` and returns its result, while
convert_facenet.py and convert_to_tflite.py return `False` with the
filesystem unchanged and no fallback. -/
theorem c4_exception_fallback_per_variant (e : ConvEnv) :
    (e.fs0.existsFile markerPath = true →
      (e.loadOk = false ∨ e.sigOk = false ∨ e.traceDynOk = false ∨
        e.convertResult = none) →
      (runConvertFacenet e).ok = false ∧
      (runConvertFacenet e).fs = e.fs0 ∧
      (runConvertFacenet e).usedFallback = false) ∧
    (∀ d, findFacenetDir e.fs0.entries = some d →
      (e.loadOk = false ∨ e.sigOk = false ∨ e.traceDynOk = false ∨
        e.convertResult = none) →
      (runConvertToTflite e).ok = false ∧
      (runConvertToTflite e).fs = e.fs0 ∧
      (runConvertToTflite e).usedFallback = false) ∧
    (e.fs0.existsFile markerPath = true →
      (e.loadOk = false ∨ e.sigOk = false ∨
        (e.traceDynOk = false ∧ e.traceFixedOk = false) ∨
        e.convertResult = none) →
      (runConvertFacenetV2 e).usedFallback = true ∧
      (runConvertFacenetV2 e).ok = (create_simple_tflite_model e e.fs0).1 ∧
      (runConvertFacenetV2 e).fs = (create_simple_tflite_model e e.fs0).2) := by
  refine ⟨?_, ?_, ?_⟩
  · intro hm hd
    cases hl : e.loadOk with
    | false => simp [runConvertFacenet, hm, hl]
    | true =>
      cases hs : e.sigOk with
      | false => simp [runConvertFacenet, hm, hl, hs]
      | true =>
        cases ht : e.traceDynOk with
        | false => simp [runConvertFacenet, hm, hl, hs, ht]
        | true =>
          cases hc : e.convertResult with
          | none => simp [runConvertFacenet, hm, hl, hs, ht, hc]
          | some buf => simp_all
  · intro d hloc hd
    cases hl : e.loadOk with
    | false => simp [runConvertToTflite, hloc, hl]
    | true =>
      cases hs : e.sigOk with
      | false => simp [runConvertToTflite, hloc, hl, hs]
      | true =>
        cases ht : e.traceDynOk with
        | false => simp [runConvertToTflite, hloc, hl, hs, ht]
        | true =>
          cases hc : e.convertResult with
          | none => simp [runConvertToTflite, hloc, hl, hs, ht, hc]
          | some buf => simp_all
  · intro hm hd
    cases hl : e.loadOk with
    | false =>
      have hrun : runConvertFacenetV2 e = v2Fallback e e.fs0 [] := by
        simp [runConvertFacenetV2, hm, hl]
      rw [hrun]
      exact ⟨rfl, rfl, rfl⟩
    | true =>
      cases hs : e.sigOk with
      | false =>
        have hrun : runConvertFacenetV2 e = v2Fallback e e.fs0 [] := by
          simp [runConvertFacenetV2, hm, hl, hs]
        rw [hrun]
        exact ⟨rfl, rfl, rfl⟩
      | true =>
        cases ht : e.traceDynOk with
        | false =>
          cases htf : e.traceFixedOk with
          | false =>
            have hrun : runConvertFacenetV2 e =
                v2Fallback e e.fs0 (v2TraceAttempts e) := by
              simp [runConvertFacenetV2, hm, hl, hs, ht, htf]
            rw [hrun]
            exact ⟨rfl, rfl, rfl⟩
          | true =>
            cases hc : e.convertResult with
            | none =>
              have hrun : runConvertFacenetV2 e =
                  v2Fallback e e.fs0 (v2TraceAttempts e) := by
                simp [runConvertFacenetV2, hm, hl, hs, ht, htf, hc]
              rw [hrun]
              exact ⟨rfl, rfl, rfl⟩
            | some buf => simp_all
        | true =>
          cases hc : e.convertResult with
          | none =>
            have hrun : runConvertFacenetV2 e =
                v2Fallback e e.fs0 (v2TraceAttempts e) := by
              simp [runConvertFacenetV2, hm, hl, hs, ht, hc]
            rw [hrun]
            exact ⟨rfl, rfl, rfl⟩
          | some buf => simp_all

/-- An environment over `fsWithModel` whose SavedModel loading raises,
exercising each script's exception handler. -/
def envLoadFails : ConvEnv :=
  ⟨fsWithModel, false, true, true, true, some [10, 11], true, true, true,
   some [20], true, true⟩

/-- C4 witness: when loading raises, convert_facenet.py and
convert_to_tflite.py fail with nothing written, while
convert_facenet_v2.py runs the fallback and returns its (successful)
result. -/
theorem c4_exception_fallback_per_variant_witness :
    ((runConvertFacenet envLoadFails).ok = false ∧
      (runConvertFacenet envLoadFails).fs = fsWithModel ∧
      (runConvertFacenet envLoadFails).usedFallback = false) ∧
    ((runConvertToTflite envLoadFails).ok = false ∧
      (runConvertToTflite envLoadFails).fs = fsWithModel ∧
      (runConvertToTflite envLoadFails).usedFallback = false) ∧
    ((runConvertFacenetV2 envLoadFails).usedFallback = true ∧
      (runConvertFacenetV2 envLoadFails).ok =
        (create_simple_tflite_model envLoadFails fsWithModel).1 ∧
      (runConvertFacenetV2 envLoadFails).fs =
        (create_simple_tflite_model envLoadFails fsWithModel).2) :=
  ⟨(c4_exception_fallback_per_variant envLoadFails).1 (by decide)
      (Or.inl rfl),
   (c4_exception_fallback_per_variant envLoadFails).2.1
      "assets/models/facenet_saved" (by decide) (Or.inl rfl),
   (c4_exception_fallback_per_variant envLoadFails).2.2 (by decide)
      (Or.inl rfl)⟩

/-- C10: output writing is not atomic: the primary output is written
before the duplicate, so if the second write raises,
convert_facenet.py and convert_to_tflite.py return `False` while the
primary output already holds the converted buffer and the duplicate is
untouched; convert_facenet_v2.py instead proceeds to the fallback with the
primary output already on disk. -/
theorem c10_first_output_survives_midfail (e : ConvEnv) (buf : Bytes)
    (d : String)
    (hm : e.fs0.existsFile markerPath = true)
    (hloc : findFacenetDir e.fs0.entries = some d)
    (hl : e.loadOk = true) (hs : e.sigOk = true) (ht : e.traceDynOk = true)
    (hc : e.convertResult = some buf) (h1 : e.write1Ok = true)
    (h2 : e.write2Ok = false) (hfb : e.fbBuildOk = false) :
    ((runConvertFacenet e).ok = false ∧
      (runConvertFacenet e).fs.read outputPath = some buf ∧
      (runConvertFacenet e).fs.read mobilefacenetPath =
        e.fs0.read mobilefacenetPath) ∧
    ((runConvertToTflite e).ok = false ∧
      (runConvertToTflite e).fs.read outputPath = some buf ∧
      (runConvertToTflite e).fs.read mobilefacenetPath =
        e.fs0.read mobilefacenetPath) ∧
    ((runConvertFacenetV2 e).usedFallback = true ∧
      (runConvertFacenetV2 e).ok = false ∧
      (runConvertFacenetV2 e).fs.read outputPath = some buf) := by
  have hrun1 : runConvertFacenet e =
      ⟨false, e.fs0.write outputPath buf, [TShape.dynBatch], false⟩ := by
    simp [runConvertFacenet, hm, hl, hs, ht, hc, h1, h2]
  have hrun3 : runConvertToTflite e =
      ⟨false, e.fs0.write outputPath buf, [TShape.dynBatch], false⟩ := by
    simp [runConvertToTflite, hloc, hl, hs, ht, hc, h1, h2]
  have hrun2 : runConvertFacenetV2 e =
      v2Fallback e (e.fs0.write outputPath buf) (v2TraceAttempts e) := by
    simp [runConvertFacenetV2, hm, hl, hs, ht, hc, h1, h2]
  have hfbrun : create_simple_tflite_model e (e.fs0.write outputPath buf) =
      (false, e.fs0.write outputPath buf) := by
    simp [create_simple_tflite_model, hfb]
  refine ⟨⟨?_, ?_, ?_⟩, ⟨?_, ?_, ?_⟩, ⟨?_, ?_, ?_⟩⟩
  · rw [hrun1]
  · rw [hrun1]; exact FS.read_write_self _ _ _
  · rw [hrun1]; exact FS.read_write_ne _ _ _ _ mobile_ne_output
  · rw [hrun3]
  · rw [hrun3]; exact FS.read_write_self _ _ _
  · rw [hrun3]; exact FS.read_write_ne _ _ _ _ mobile_ne_output
  · rw [hrun2]; simp [v2Fallback]
  · rw [hrun2]; simp [v2Fallback, hfbrun]
  · rw [hrun2]; simp [v2Fallback, hfbrun]; exact FS.read_write_self _ _ _

/-- An environment over `fsWithModel` in which everything succeeds until
the write of the duplicate output raises, and the fallback's model
construction raises as well. -/
def envWrite2Fails : ConvEnv :=
  ⟨fsWithModel, true, true, true, true, some [10, 11], true, false, false,
   some [20], true, true⟩

/-- C10 witness: with the duplicate write raising, the first two scripts
fail with the primary output on disk, and convert_facenet_v2.py reaches
its fallback with the primary output on disk. -/
theorem c10_first_output_survives_midfail_witness :
    ((runConvertFacenet envWrite2Fails).ok = false ∧
      (runConvertFacenet envWrite2Fails).fs.read outputPath =
        some [10, 11] ∧
      (runConvertFacenet envWrite2Fails).fs.read mobilefacenetPath =
        fsWithModel.read mobilefacenetPath) ∧
    ((runConvertToTflite envWrite2Fails).ok = false ∧
      (runConvertToTflite envWrite2Fails).fs.read outputPath =
        some [10, 11] ∧
      (runConvertToTflite envWrite2Fails).fs.read mobilefacenetPath =
        fsWithModel.read mobilefacenetPath) ∧
    ((runConvertFacenetV2 envWrite2Fails).usedFallback = true ∧
      (runConvertFacenetV2 envWrite2Fails).ok = false ∧
      (runConvertFacenetV2 envWrite2Fails).fs.read outputPath =
        some [10, 11]) :=
  c10_first_output_survives_midfail envWrite2Fails [10, 11]
    "assets/models/facenet_saved" (by decide) (by decide) rfl rfl rfl rfl
    rfl rfl rfl

/-- An environment over `fsWithModel` in which tracing with the
dynamic-batch shape raises but everything else succeeds. -/
def envNoDynTrace : ConvEnv :=
  ⟨fsWithModel, true, true, false, true, some [10, 11], true, true, true,
   some [20], true, true⟩

/-- C6 counterexample: in convert_facenet.py, when tracing with shape
[None, 160, 160, 3] fails there is no retry with the batch dimension
fixed to 1: the dynamic shape is the only one attempted and the run
simply fails. -/
theorem c6_counterexample_no_retry_in_v1 :
    (runConvertFacenet envNoDynTrace).traceAttempts = [TShape.dynBatch] ∧
    TShape.batch1 ∉ (runConvertFacenet envNoDynTrace).traceAttempts ∧
    (runConvertFacenet envNoDynTrace).ok = false := by
  decide

/-- The trace-attempt log of convert_facenet_v2.py is `v2TraceAttempts`
whenever the run gets past signature resolution. -/
theorem v2_attempts_eq (e : ConvEnv)
    (hm : e.fs0.existsFile markerPath = true) (hl : e.loadOk = true)
    (hs : e.sigOk = true) :
    (runConvertFacenetV2 e).traceAttempts = v2TraceAttempts e := by
  cases ht : e.traceDynOk with
  | false =>
    cases htf : e.traceFixedOk with
    | false => simp [runConvertFacenetV2, v2Fallback, hm, hl, hs, ht, htf]
    | true =>
      cases hc : e.convertResult with
      | none => simp [runConvertFacenetV2, v2Fallback, hm, hl, hs, ht, htf, hc]
      | some buf =>
        cases h1 : e.write1Ok with
        | false =>
          simp [runConvertFacenetV2, v2Fallback, hm, hl, hs, ht, htf, hc, h1]
        | true =>
          cases h2 : e.write2Ok with
          | false =>
            simp [runConvertFacenetV2, v2Fallback, hm, hl, hs, ht, htf, hc,
              h1, h2]
          | true =>
            simp [runConvertFacenetV2, v2Fallback, hm, hl, hs, ht, htf, hc,
              h1, h2]
  | true =>
    cases hc : e.convertResult with
    | none => simp [runConvertFacenetV2, v2Fallback, hm, hl, hs, ht, hc]
    | some buf =>
      cases h1 : e.write1Ok with
      | false => simp [runConvertFacenetV2, v2Fallback, hm, hl, hs, ht, hc, h1]
      | true =>
        cases h2 : e.write2Ok with
        | false =>
          simp [runConvertFacenetV2, v2Fallback, hm, hl, hs, ht, hc, h1, h2]
        | true =>
          simp [runConvertFacenetV2, v2Fallback, hm, hl, hs, ht, hc, h1, h2]

/-- The trace-attempt log of convert_facenet.py is empty or the single
dynamic-batch attempt: this script never retries. -/
theorem v1_attempts_cases (e : ConvEnv) :
    (runConvertFacenet e).traceAttempts = [] ∨
    (runConvertFacenet e).traceAttempts = [TShape.dynBatch] := by
  cases hm : e.fs0.existsFile markerPath with
  | false => exact Or.inl (by simp [runConvertFacenet, hm])
  | true =>
    cases hl : e.loadOk with
    | false => exact Or.inl (by simp [runConvertFacenet, hm, hl])
    | true =>
      cases hs : e.sigOk with
      | false => exact Or.inl (by simp [runConvertFacenet, hm, hl, hs])
      | true =>
        cases ht : e.traceDynOk with
        | false => exact Or.inr (by simp [runConvertFacenet, hm, hl, hs, ht])
        | true =>
          cases hc : e.convertResult with
          | none =>
            exact Or.inr (by simp [runConvertFacenet, hm, hl, hs, ht, hc])
          | some buf =>
            cases h1 : e.write1Ok with
            | false =>
              exact Or.inr
                (by simp [runConvertFacenet, hm, hl, hs, ht, hc, h1])
            | true =>
              cases h2 : e.write2Ok with
              | false =>
                exact Or.inr
                  (by simp [runConvertFacenet, hm, hl, hs, ht, hc, h1, h2])
              | true =>
                exact Or.inr
                  (by simp [runConvertFacenet, hm, hl, hs, ht, hc, h1, h2])

/-- The trace-attempt log of convert_to_tflite.py is empty or the single
dynamic-batch attempt: this script never retries. -/
theorem v3_attempts_cases (e : ConvEnv) :
    (runConvertToTflite e).traceAttempts = [] ∨
    (runConvertToTflite e).traceAttempts = [TShape.dynBatch] := by
  cases hloc : findFacenetDir e.fs0.entries with
  | none => exact Or.inl (by simp [runConvertToTflite, hloc])
  | some d =>
    cases hl : e.loadOk with
    | false => exact Or.inl (by simp [runConvertToTflite, hloc, hl])
    | true =>
      cases hs : e.sigOk with
      | false => exact Or.inl (by simp [runConvertToTflite, hloc, hl, hs])
      | true =>
        cases ht : e.traceDynOk with
        | false =>
          exact Or.inr (by simp [runConvertToTflite, hloc, hl, hs, ht])
        | true =>
          cases hc : e.convertResult with
          | none =>
            exact Or.inr (by simp [runConvertToTflite, hloc, hl, hs, ht, hc])
          | some buf =>
            cases h1 : e.write1Ok with
            | false =>
              exact Or.inr
                (by simp [runConvertToTflite, hloc, hl, hs, ht, hc, h1])
            | true =>
              cases h2 : e.write2Ok with
              | false =>
                exact Or.inr
                  (by simp [runConvertToTflite, hloc, hl, hs, ht, hc, h1, h2])
              | true =>
                exact Or.inr
                  (by simp [runConvertToTflite, hloc, hl, hs, ht, hc, h1, h2])

/-- C6 as amended: only convert_facenet_v2.py retries the trace - there,
after a failure of the dynamic-batch shape the trace is retried exactly
once with the batch dimension fixed to 1, and never retried when the
first attempt succeeds; convert_facenet.py and convert_to_tflite.py
attempt at most the single dynamic-batch trace; and the downloader
attempts each of its three URLs exactly once - so the v2 shape retry is
the only retry policy in the system. -/
theorem c6_retry_only_in_v2 (e : ConvEnv) (net : Net) (fs0 : FS) :
    (e.fs0.existsFile markerPath = true → e.loadOk = true →
      e.sigOk = true → e.traceDynOk = false →
      (runConvertFacenetV2 e).traceAttempts =
        [TShape.dynBatch, TShape.batch1]) ∧
    (e.traceDynOk = true →
      (runConvertFacenetV2 e).traceAttempts.count TShape.batch1 = 0) ∧
    ((runConvertFacenet e).traceAttempts.count TShape.batch1 = 0 ∧
      (runConvertFacenet e).traceAttempts.length ≤ 1) ∧
    ((runConvertToTflite e).traceAttempts.count TShape.batch1 = 0 ∧
      (runConvertToTflite e).traceAttempts.length ≤ 1) ∧
    ((mainDownload net fs0).attemptedUrls =
      modelsList.map (fun m => m.url) ∧
      (mainDownload net fs0).attemptedUrls.Nodup) := by
  have hurls : (mainDownload net fs0).attemptedUrls =
      modelsList.map (fun m => m.url) := by
    simpa [mainDownload] using dlFold_urls net modelsList 0 fs0 []
  refine ⟨?_, ?_, ?_, ?_, hurls, ?_⟩
  · intro hm hl hs ht
    rw [v2_attempts_eq e hm hl hs]
    simp [v2TraceAttempts, ht]
  · intro ht
    cases hm : e.fs0.existsFile markerPath with
    | false => simp [runConvertFacenetV2, hm]
    | true =>
      cases hl : e.loadOk with
      | false => simp [runConvertFacenetV2, v2Fallback, hm, hl]
      | true =>
        cases hs : e.sigOk with
        | false => simp [runConvertFacenetV2, v2Fallback, hm, hl, hs]
        | true =>
          rw [v2_attempts_eq e hm hl hs]
          simp [v2TraceAttempts, ht]
  · rcases v1_attempts_cases e with h | h <;> simp [h]
  · rcases v3_attempts_cases e with h | h <;> simp [h]
  · rw [hurls]
    decide

/-- C6 (amended) witness: on an environment whose dynamic-shape trace
fails, convert_facenet_v2.py attempts exactly the dynamic shape and then
the batch-1 shape, and the downloader's attempt log has no repeats. -/
theorem c6_retry_only_in_v2_witness :
    (runConvertFacenetV2 envNoDynTrace).traceAttempts =
      [TShape.dynBatch, TShape.batch1] ∧
    (mainDownload (fun _ => none) ⟨[], []⟩).attemptedUrls.Nodup :=
  ⟨(c6_retry_only_in_v2 envNoDynTrace (fun _ => none) ⟨[], []⟩).1
      (by decide) rfl rfl rfl,
   (c6_retry_only_in_v2 envNoDynTrace (fun _ => none) ⟨[], []⟩).2.2.2.2.2⟩

end Marketsafe
